import Mathlib

/-
Shallow embedding of `src/OpenFoodFacts/food_dashboard.py`.

The dashboard reads product records (dicts) coming from three fetch
strategies, aggregates them into four frequency distributions
(nutriscore counts, top-5 brands, top-5 categories, top-5 ingredients),
and can save/reload the aggregation through a JSON-serialized table row.

Modelling decisions:
  * Python strings are modelled through their character lists
    (`String.data`); `str.split(sep)` for a one-character separator is
    `pySplit`, `str.replace('en:','')` is `stripEn`, `str.upper()` /
    `str.lower()` are `pyUpper` / `pyLower` (the code only applies them
    to ASCII country codes and nutriscore grades), the Python substring
    test `a in b` is `containsChars`.
  * A product field that the pipeline splits may hold either a string
    (CSV-derived) or a native list of tags (API/parquet-derived); this
    is the `Value` type.  Calling `.split(',')` on a list value raises
    `AttributeError` in Python; the embedding returns `Except.error ()`.
  * `collections.Counter` preserves first-insertion key order and
    `most_common(n)` sorts by count descending, breaking ties by
    first-seen order (stable); this is `counter` / `most_common`.
  * Streamlit calls (`st.error`, `st.warning`, ...) are modelled as
    emitted message strings; `time.sleep` as a sleep counter; API page
    requests as a function `Nat → Except Unit SearchResult` together
    with a request counter.
-/

namespace FoodDashboard

/-! ## Python string primitives (character-level) -/

/-- One step of Python `str.split(sep)` for a single-character separator:
accumulates the current token (reversed) and emits it at each separator. -/
def splitCharsAux (sep : Char) : List Char → List Char → List (List Char)
  | [], cur => [cur.reverse]
  | c :: rest, cur =>
    if c = sep then cur.reverse :: splitCharsAux sep rest []
    else splitCharsAux sep rest (c :: cur)

/-- Python `s.split(sep)` for a one-character separator `sep`:
`"".split(',') = ['']`, `"a,,b".split(',') = ['a','','b']`. -/
def pySplit (sep : Char) (s : String) : List String :=
  (splitCharsAux sep s.data []).map String.mk

/-- Whether `pat` is a prefix of the second list (Python `str.startswith`). -/
def startsWithChars : List Char → List Char → Bool
  | [], _ => true
  | _ :: _, [] => false
  | p :: ps, c :: cs => p = c && startsWithChars ps cs

/-- Python substring test `pat in s` on character lists. -/
def containsChars (pat : List Char) : List Char → Bool
  | [] => startsWithChars pat []
  | c :: cs => startsWithChars pat (c :: cs) || containsChars pat cs

/-- Python `s.lower()` (ASCII; the code lowercases country codes). -/
def pyLower (s : String) : String := String.mk (s.data.map Char.toLower)

/-- Python `s.upper()` (ASCII; the code uppercases nutriscore grades). -/
def pyUpper (s : String) : String := String.mk (s.data.map Char.toUpper)

/-- Python `s.strip()`: drop leading and trailing whitespace. -/
def pyStrip (s : String) : String :=
  String.mk (((s.data.dropWhile Char.isWhitespace).reverse.dropWhile
    Char.isWhitespace).reverse)

/-- Python `s.replace('en:', '')` on character lists: scan left to right,
delete each non-overlapping occurrence of `en:` and continue after it. -/
def stripMarkerChars : List Char → List Char
  | [] => []
  | [c] => [c]
  | [c1, c2] => [c1, c2]
  | c1 :: c2 :: c3 :: rest =>
    if c1 = 'e' ∧ c2 = 'n' ∧ c3 = ':' then stripMarkerChars rest
    else c1 :: stripMarkerChars (c2 :: c3 :: rest)

/-- The language-marker stripping `cat.replace('en:', '')` used on
category and ingredient tags (lines 672 and 694, and in `save_data`). -/
def stripEn (s : String) : String := String.mk (stripMarkerChars s.data)

/-- Whether a character list contains an occurrence of `en:`. -/
def containsEnChars : List Char → Bool
  | [] => false
  | [_] => false
  | [_, _] => false
  | c1 :: c2 :: c3 :: rest =>
    (c1 = 'e' && c2 = 'n' && c3 = ':') || containsEnChars (c2 :: c3 :: rest)

/-! ## Data model -/

/-- A product field value: either a comma-joined string (CSV-derived) or a
native list of tags (API/columnar-derived). -/
inductive Value where
  | vstr (s : String)
  | vlist (l : List String)
deriving DecidableEq, Repr

/-- A product record, restricted to the four fields the aggregation reads.
`none` models an absent dict key. -/
structure Product where
  nutriscore_grade : Option String := none
  brands : Option Value := none
  categories_tags : Option Value := none
  ingredients_tags : Option Value := none
deriving DecidableEq, Repr

/-- The aggregation result: the nutriscore counter and the three
`most_common(5)` lists, all as ordered (label, count) pairs. -/
structure Agg where
  nutriscore : List (String × Nat)
  top_brands : List (String × Nat)
  top_categories : List (String × Nat)
  top_ingredients : List (String × Nat)
deriving DecidableEq, Repr

/-! ## collections.Counter -/

/-- One `Counter` update: increment the count of `k`, appending a new key
at the end (Python dicts keep first-insertion order). -/
def bump : List (String × Nat) → String → List (String × Nat)
  | [], k => [(k, 1)]
  | (k', c) :: rest, k =>
    if k' = k then (k', c + 1) :: rest else (k', c) :: bump rest k

/-- Python `Counter(l)` as an insertion-ordered association list. -/
def counter (l : List String) : List (String × Nat) :=
  l.foldl bump []

/-- Stable descending insertion (by count); among equal counts the earlier
element stays first, matching `heapq.nlargest` used by `most_common`. -/
def insertDesc (x : String × Nat) : List (String × Nat) → List (String × Nat)
  | [] => [x]
  | y :: ys => if y.2 ≤ x.2 then x :: y :: ys else y :: insertDesc x ys

/-- Stable sort by count descending. -/
def sortDesc : List (String × Nat) → List (String × Nat)
  | [] => []
  | x :: xs => insertDesc x (sortDesc xs)

/-- Python `Counter(...).most_common(n)`: stable descending sort, first `n`. -/
def most_common (n : Nat) (l : List (String × Nat)) : List (String × Nat) :=
  (sortDesc l).take n

/-! ## Aggregation (render path, lines 620-695, and `save_data`, 342-359) -/

/-- Python `p.get(field, '').split(',')`: an absent field defaults to `''` and
splits to `['']`; a string splits on commas; a native list value raises
`AttributeError` (`'list' object has no attribute 'split'`), modelled as
`Except.error ()`. -/
def getSplit (v : Option Value) : Except Unit (List String) :=
  match v with
  | none => .ok (pySplit ',' "")
  | some (.vstr s) => .ok (pySplit ',' s)
  | some (.vlist _) => .error ()

/-- The comprehension `[item for item in p.get('brands', '').split(',') if item]`. -/
def brandTokens (p : Product) : Except Unit (List String) :=
  (getSplit p.brands).map (fun ts => ts.filter (fun t => t ≠ ""))

/-- The comprehension
`[cat.replace('en:', '') for cat in p.get('categories_tags', '').split(",") if cat]`
(the emptiness filter runs on the raw token, before stripping). -/
def categoryTokens (p : Product) : Except Unit (List String) :=
  (getSplit p.categories_tags).map
    (fun ts => (ts.filter (fun t => t ≠ "")).map stripEn)

/-- Same comprehension for `ingredients_tags`. -/
def ingredientTokens (p : Product) : Except Unit (List String) :=
  (getSplit p.ingredients_tags).map
    (fun ts => (ts.filter (fun t => t ≠ "")).map stripEn)

/-- Flatten one token comprehension over the whole product list; the first
`AttributeError` aborts the comprehension. -/
def collectTokens (f : Product → Except Unit (List String)) :
    List Product → Except Unit (List String)
  | [] => .ok []
  | p :: ps =>
    match f p, collectTokens f ps with
    | .ok ts, .ok rest => .ok (ts ++ rest)
    | _, _ => .error ()

/-- Render path, line 628: `[p.get('nutriscore_grade','X') for p in products]`
followed by `Counter`.  No uppercasing; an absent key defaults to `'X'`;
a present value (even `''` or lowercase) is counted verbatim. -/
def renderNutriCounts (ps : List Product) : List (String × Nat) :=
  counter (ps.map (fun p => p.nutriscore_grade.getD "X"))

/-- The render-path aggregation (lines 620-695): nutriscore counter plus
the three `most_common(5)` lists.  Fails iff some product holds a native
list in a field that gets `.split` called on it. -/
def renderAgg (ps : List Product) : Except Unit Agg :=
  match collectTokens brandTokens ps, collectTokens categoryTokens ps,
        collectTokens ingredientTokens ps with
  | .ok bs, .ok cs, .ok ings =>
    .ok { nutriscore := renderNutriCounts ps
          top_brands := most_common 5 (counter bs)
          top_categories := most_common 5 (counter cs)
          top_ingredients := most_common 5 (counter ings) }
  | _, _, _ => .error ()

/-- Python truthiness of `p.get('nutriscore_grade')`: present and nonempty. -/
def gradeTruthy (p : Product) : Bool := p.nutriscore_grade.getD "" ≠ ""

/-- Lines 346-347 of `save_data`:
`[p.get('nutriscore_grade', 'unknown').upper() for p in products if p.get('nutriscore_grade')]`
followed by `Counter`.  Products with an absent or empty grade are
filtered out (the `'unknown'` default can never fire), the rest are
uppercased. -/
def saveNutriCounts (ps : List Product) : List (String × Nat) :=
  counter ((ps.filter gradeTruthy).map
    (fun p => pyUpper (p.nutriscore_grade.getD "unknown")))

/-- The aggregation computed inside `save_data` (lines 345-359): same
brand/category/ingredient comprehensions as the render path, but the
filtered-and-uppercased nutriscore counter. -/
def saveAgg (ps : List Product) : Except Unit Agg :=
  match collectTokens brandTokens ps, collectTokens categoryTokens ps,
        collectTokens ingredientTokens ps with
  | .ok bs, .ok cs, .ok ings =>
    .ok { nutriscore := saveNutriCounts ps
          top_brands := most_common 5 (counter bs)
          top_categories := most_common 5 (counter cs)
          top_ingredients := most_common 5 (counter ings) }
  | _, _, _ => .error ()

/-- Projection used to state concrete evaluations of the aggregation. -/
def topBrandsOf (e : Except Unit Agg) : List (String × Nat) :=
  match e with
  | .ok a => a.top_brands
  | .error _ => []

/-! ## JSON serialization of the aggregation result
(`save_data` line 370: `json.dumps(...)`; `load_saved_data` line 429:
`json.loads(...)` followed by the four key accesses).  A JSON value tree
models what `json.dumps` writes and `json.loads` reproduces: dicts keep
insertion order, a Python tuple is written as a JSON array. -/

/-- JSON values produced/consumed by the save/load round trip (the counts
in this program are natural numbers). -/
inductive Json where
  | jnum (n : Nat)
  | jstr (s : String)
  | jarr (l : List Json)
  | jobj (l : List (String × Json))

/-- Encode a counter dict `label → count`. -/
def encodeDist (l : List (String × Nat)) : Json :=
  .jobj (l.map (fun kc => (kc.1, .jnum kc.2)))

/-- Encode a `most_common` list of `(label, count)` tuples. -/
def encodePairs (l : List (String × Nat)) : Json :=
  .jarr (l.map (fun kc => .jarr [.jstr kc.1, .jnum kc.2]))

/-- The `graph_data` JSON written by `save_data` (lines 370-375). -/
def encodeAgg (a : Agg) : Json :=
  .jobj [("nutriscore_distribution", encodeDist a.nutriscore),
         ("top_brands", encodePairs a.top_brands),
         ("top_categories", encodePairs a.top_categories),
         ("top_ingredients", encodePairs a.top_ingredients)]

/-- Dict key access on a decoded JSON object. -/
def jlookup (key : String) : List (String × Json) → Option Json
  | [] => none
  | (k, v) :: rest => if k = key then some v else jlookup key rest

/-- Read back a counter dict. -/
def decodeDistEntries : List (String × Json) → Option (List (String × Nat))
  | [] => some []
  | (k, .jnum n) :: rest => (decodeDistEntries rest).map (fun r => (k, n) :: r)
  | _ => none

/-- Read back a list of `(label, count)` pairs (each a two-element array,
exactly the shape `load_saved_data` indexes with `[0]` and `[1]`). -/
def decodePairsEntries : List Json → Option (List (String × Nat))
  | [] => some []
  | .jarr [.jstr k, .jnum n] :: rest =>
    (decodePairsEntries rest).map (fun r => (k, n) :: r)
  | _ => none

/-- What `load_saved_data` (lines 429-515) reconstructs from the stored
`graph_data`: the four distributions, each accessed by its dict key. -/
def decodeAgg (j : Json) : Option Agg :=
  match j with
  | .jobj entries =>
    match jlookup "nutriscore_distribution" entries,
          jlookup "top_brands" entries,
          jlookup "top_categories" entries,
          jlookup "top_ingredients" entries with
    | some (.jobj dl), some (.jarr bl), some (.jarr cl), some (.jarr il) =>
      match decodeDistEntries dl, decodePairsEntries bl,
            decodePairsEntries cl, decodePairsEntries il with
      | some nd, some tb, some tc, some ti => some ⟨nd, tb, tc, ti⟩
      | _, _, _, _ => none
    | _, _, _, _ => none
  | _ => none

/-- Save then load: the four distributions reconstructed by
`load_saved_data` after `save_data` stored this product list. -/
def savedThenLoaded (ps : List Product) : Option Agg :=
  match saveAgg ps with
  | .ok a => decodeAgg (encodeAgg a)
  | .error _ => none

/-- The four distributions the direct render aggregation would produce. -/
def directAgg (ps : List Product) : Option Agg :=
  match renderAgg ps with
  | .ok a => some a
  | .error _ => none

/-! ## Mode selection and dispatch (lines 537-617) -/

/-- The four option strings offered by the `st.radio` widget (lines 537-545). -/
def modeOptions : List String :=
  ["Load Saved Data",
   "Get data from compressed CSV Database (recommended)",
   "Get Data from API Endpoint Search (slow)",
   "Get data from Parquet Database (experimental)"]

/-- The fetch functions the mode dispatch can invoke. -/
inductive Fetcher where
  | api
  | csv
  | parquet
deriving DecidableEq, Repr

/-- The `if mode == ... / elif ...` dispatch (lines 547, 566, 585, 602):
which fetch function the selected mode leads to, `none` for the
load-saved branch and for a mode string that matches no branch. -/
def dispatchFetcher (mode : String) : Option Fetcher :=
  if mode = "Load Saved Data" then none
  else if mode = "Get Data from API Endpoint Search (slow)" then some .api
  else if mode = "Get data from compressed CSV Database (.gz)" then some .csv
  else if mode = "Get data from Parquet Database (fast)" then some .parquet
  else none

/-! ## `fetch_products_by_country` (lines 123-165) -/

/-- One response of `api.product.text_search`: both fields are read with
`.get(..., default)`, so each may be absent. -/
structure SearchResult where
  page_count : Option Nat := none
  products : Option (List Product) := none

/-- Observable outcome of the pagination loop over pages
`page, page+1, ...`: accumulated products, number of `text_search`
requests issued, number of `time.sleep(7)` calls, warning messages. -/
structure CrawlOut where
  products : List Product
  requests : Nat
  sleeps : Nat
  messages : List String

/-- The `for page in range(2, total_pages + 1)` part of the loop (page 1
is served from the initial response without a new request or sleep).
Each later page sleeps 7 seconds, then issues a request; a failed request
emits a warning and breaks, keeping the accumulated products. -/
def crawlPages (api : Nat → Except Unit SearchResult) (acc : List Product) :
    List Nat → CrawlOut
  | [] => ⟨acc, 0, 0, []⟩
  | page :: rest =>
    match api page with
    | .error _ => ⟨acc, 1, 1, ["Error fetching page " ++ toString page]⟩
    | .ok r =>
      let res := crawlPages api (acc ++ r.products.getD []) rest
      ⟨res.products, res.requests + 1, res.sleeps + 1, res.messages⟩

/-- Observable outcome of `fetch_products_by_country`: returned list,
requests issued (the initial `text_search` included), sleeps, and the
`st.warning` / `st.error` messages shown. -/
structure FetchResult where
  products : List Product
  requests : Nat
  sleeps : Nat
  messages : List String

/-- The whole `for page in range(1, total_pages + 1)` loop, given the
initial response `r1`: when `total_pages ≥ 1` the page-1 iteration
contributes `r1`'s products without a new request or sleep and the later
pages run through `crawlPages`; `range(1, 1)` is empty when
`total_pages = 0`. -/
def crawlOf (api : Nat → Except Unit SearchResult) (r1 : SearchResult) :
    CrawlOut :=
  let totalPages := r1.page_count.getD 1
  if 1 ≤ totalPages then
    crawlPages api (r1.products.getD []) (List.range' 2 (totalPages - 1))
  else ⟨[], 0, 0, []⟩

/-- Function `fetch_products_by_country` (lines 123-165): initial request, read
`page_count` with default 1, loop pages `1..total_pages`, then return
`[]` with an error message when nothing was accumulated or when the
initial request failed (every failure is caught; the function always
returns). -/
def fetch_products_by_country (api : Nat → Except Unit SearchResult) :
    FetchResult :=
  match api 1 with
  | .error _ => ⟨[], 1, 0, ["Error fetching data"]⟩
  | .ok r1 =>
    let out := crawlOf api r1
    if out.products.isEmpty then
      ⟨[], out.requests + 1, out.sleeps,
       out.messages ++ ["No products found. Please try again later."]⟩
    else ⟨out.products, out.requests + 1, out.sleeps, out.messages⟩

/-! ## `fetch_products_from_csv` (lines 172-260) -/

/-- Inputs and fault points of one `fetch_products_from_csv` run.  The
three `Fails` flags are the places the Python code can raise: opening
the dataset (outer `try`, before the scratch path is used), reading the
gzip header (inner `try`, before the scratch file is created), and the
two file passes (after it is created). -/
structure CsvEnv where
  headerLine : String
  dataLines : List String
  datasetFails : Bool
  gzipHeaderFails : Bool
  writePassFails : Bool
  parsePassFails : Bool

/-- Line 227: keep a parsed record only when its `countries_tags` field is
present, truthy and contains the country tag as a substring. -/
def parseCsvLine (header : List String) (tag : String) (line : String) :
    Option (List (String × String)) :=
  let values := pySplit '\t' (pyStrip line)
  let product := header.zip values
  match List.lookup "countries_tags" product with
  | some ct =>
    if ct ≠ "" && containsChars tag.data ct.data then some product else none
  | none => none

/-- The `finally` block (lines 250-256): `os.remove` the scratch file when
it exists (the claim assumes the removal of an existing file succeeds). -/
def cleanupTemp (tempExists : Bool) : Bool :=
  if tempExists then false else tempExists

/-- Observable outcome of `fetch_products_from_csv`: the returned records
and whether the scratch file `temp_<country>.csv` still exists. -/
structure CsvOutcome where
  result : List (List (String × String))
  tempExistsAfter : Bool

/-- Function `fetch_products_from_csv` (lines 172-260).  Pass 1 filters raw lines by
the substring test `country_tag.lower() in line` into the scratch file
(created when pass 1 opens it for writing, right after the header was
read from the gzip stream); pass 2 re-parses the scratch file.  Every
raise is caught and yields `[]`; the `finally` block removes the scratch
file whenever it exists. -/
def fetch_products_from_csv (env : CsvEnv) (country_code : String) :
    CsvOutcome :=
  let tag := pyLower ("en:" ++ country_code)
  if env.datasetFails then
    -- outer except: the scratch path was never even computed
    { result := [], tempExistsAfter := cleanupTemp false }
  else if env.gzipHeaderFails then
    -- inner except, before `open(temp_file_path, 'w')` created the file
    { result := [], tempExistsAfter := cleanupTemp false }
  else if env.writePassFails then
    -- the scratch file was created, then pass 1 raised
    { result := [], tempExistsAfter := cleanupTemp true }
  else
    let matchingLines :=
      env.dataLines.filter (fun l => containsChars tag.data l.data)
    if matchingLines.length = 0 then
      -- early `return []` for zero matches; `finally` still runs
      { result := [], tempExistsAfter := cleanupTemp true }
    else if env.parsePassFails then
      { result := [], tempExistsAfter := cleanupTemp true }
    else
      let header := pySplit '\t' (pyStrip env.headerLine)
      let prods := matchingLines.filterMap (parseCsvLine header tag)
      { result := prods, tempExistsAfter := cleanupTemp true }

/-! ## Concrete inputs used by the claim theorems -/

/-- A product whose `categories_tags` arrives as a native list of tags
(the shape the API and parquet fetchers produce). -/
def productListField : Product :=
  { nutriscore_grade := some "a", categories_tags := some (.vlist ["en:snacks"]) }

/-- The same product with `categories_tags` as a comma-joined string
(the CSV-derived shape). -/
def productStrField : Product :=
  { nutriscore_grade := some "a", categories_tags := some (.vstr "en:snacks") }

/-- The two-product input of the C3 scenario. -/
def psC3 : List Product :=
  [{ nutriscore_grade := some "a", brands := some (.vstr "Acme, Acme") },
   { nutriscore_grade := some "b", brands := some (.vstr "Zeta") }]

/-- A one-product input whose grade is lowercase. -/
def psC6 : List Product :=
  [{ nutriscore_grade := some "a", brands := some (.vstr "BrandB") }]

/-! ## Theorems -/

theorem strip_no_en :
    (l : List Char) → containsEnChars l = false → stripMarkerChars l = l
  | [], _ => rfl
  | [_], _ => rfl
  | [_, _], _ => rfl
  | c1 :: c2 :: c3 :: rest, h => by
    simp only [containsEnChars, Bool.or_eq_false_iff, Bool.and_eq_false_iff,
      decide_eq_false_iff_not] at h
    simp only [stripMarkerChars]
    rw [if_neg (by tauto)]
    exact congrArg (c1 :: ·) (strip_no_en (c2 :: c3 :: rest) h.2)

/-- C1: the aggregation step is *not* uniform in the field shape: on a
product whose `categories_tags` is a native list the render aggregation
raises (`'list' object has no attribute 'split'`) instead of producing
the distributions it produces for the comma-joined string shape. -/
theorem c1_list_field_crashes :
    (renderAgg [productListField]).toOption = none ∧
    (renderAgg [productStrField]).toOption =
      some { nutriscore := [("a", 1)], top_brands := [],
             top_categories := [("snacks", 1)], top_ingredients := [] } := by
  decide

/-- C2: no option string the radio widget can produce reaches the
compressed-CSV branch or the Parquet branch of the mode dispatch, so
`fetch_products_from_csv` and `fetch_products_from_parquet` are
unreachable from it. -/
theorem c2_dead_branches :
    ∀ m ∈ modeOptions,
      dispatchFetcher m ≠ some Fetcher.csv ∧
      dispatchFetcher m ≠ some Fetcher.parquet := by
  decide

theorem c2_dead_branches_witness :
    dispatchFetcher "Get data from compressed CSV Database (recommended)" ≠
      some Fetcher.csv ∧
    dispatchFetcher "Get data from compressed CSV Database (recommended)" ≠
      some Fetcher.parquet :=
  c2_dead_branches "Get data from compressed CSV Database (recommended)"
    (by decide)

/-- C3 counterexample: on the scenario input the brand aggregation does
*not* yield `[("Acme", 2), ("Zeta", 1)]` — the code never trims
whitespace, so `" Acme"` stays distinct from `"Acme"`. -/
theorem c3_counterexample :
    topBrandsOf (renderAgg psC3) ≠ [("Acme", 2), ("Zeta", 1)] := by
  decide

/-- C3 amended: splitting `"Acme, Acme"` on commas without trimming gives
the tokens `"Acme"` and `" Acme"`, so the top-brands list is
`[("Acme", 1), (" Acme", 1), ("Zeta", 1)]`. -/
theorem c3_no_trim :
    topBrandsOf (renderAgg psC3) = [("Acme", 1), (" Acme", 1), ("Zeta", 1)] := by
  decide

/-- C4 counterexample: the stripping is `str.replace('en:', '')`, which
removes *every* occurrence and can thereby create a fresh occurrence:
on `"een:n:"` one pass gives `"en:"`, a second pass gives `""`. -/
theorem c4_counterexample :
    stripEn (stripEn "een:n:") ≠ stripEn "een:n:" := by
  decide

/-- C4 amended: the stripping is idempotent on every string whose once-
stripped result contains no further occurrence of the marker `"en:"`
(in particular on every tag where the marker occurs only as a prefix);
it is not idempotent on arbitrary strings. -/
theorem c4_idempotent_when_clean (s : String)
    (h : containsEnChars (stripEn s).data = false) :
    stripEn (stripEn s) = stripEn s :=
  congrArg String.mk (strip_no_en _ h)

theorem c4_idempotent_when_clean_witness :
    containsEnChars (stripEn "en:food").data = false ∧
    stripEn (stripEn "en:food") = stripEn "en:food" :=
  ⟨by decide, c4_idempotent_when_clean "en:food" (by decide)⟩

theorem mem_bump :
    ∀ (acc : List (String × Nat)) (x k : String) (c : Nat),
      (k, c) ∈ bump acc x → (∃ c0, (k, c0) ∈ acc) ∨ k = x
  | [], x, k, c, h => by
    simp only [bump, List.mem_singleton, Prod.mk.injEq] at h
    exact Or.inr h.1
  | (k', c') :: tl, x, k, c, h => by
    simp only [bump] at h
    split at h
    · rcases List.mem_cons.mp h with h1 | h1
      · rw [Prod.mk.injEq] at h1
        exact Or.inl ⟨c', by simp [h1.1]⟩
      · exact Or.inl ⟨c, List.mem_cons_of_mem _ h1⟩
    · rcases List.mem_cons.mp h with h1 | h1
      · rw [Prod.mk.injEq] at h1
        exact Or.inl ⟨c', by simp [h1.1]⟩
      · rcases mem_bump tl x k c h1 with ⟨c0, hc0⟩ | he
        · exact Or.inl ⟨c0, List.mem_cons_of_mem _ hc0⟩
        · exact Or.inr he

theorem mem_counter_aux :
    ∀ (l : List String) (acc : List (String × Nat)) (k : String) (c : Nat),
      (k, c) ∈ l.foldl bump acc → (∃ c0, (k, c0) ∈ acc) ∨ k ∈ l
  | [], _, _, c, h => Or.inl ⟨c, h⟩
  | x :: xs, acc, k, c, h => by
    rcases mem_counter_aux xs (bump acc x) k c h with ⟨c0, hc0⟩ | hx
    · rcases mem_bump acc x k c0 hc0 with h1 | h1
      · exact Or.inl h1
      · subst h1
        exact Or.inr (List.mem_cons_self _ _)
    · exact Or.inr (List.mem_cons_of_mem _ hx)

theorem mem_counter (l : List String) (k : String) (c : Nat)
    (h : (k, c) ∈ counter l) : k ∈ l := by
  rcases mem_counter_aux l [] k c h with ⟨c0, hc0⟩ | h1
  · simp at hc0
  · exact h1

/-- Total number of counted occurrences in a counter. -/
def sumCounts (l : List (String × Nat)) : Nat := (l.map Prod.snd).sum

theorem sumCounts_bump :
    ∀ (acc : List (String × Nat)) (x : String),
      sumCounts (bump acc x) = sumCounts acc + 1
  | [], _ => rfl
  | (k', c') :: tl, x => by
    simp only [bump]
    split
    · simp only [sumCounts, List.map_cons, List.sum_cons]
      omega
    · simp only [sumCounts, List.map_cons, List.sum_cons]
      have h := sumCounts_bump tl x
      simp only [sumCounts] at h
      omega

theorem sumCounts_foldl :
    ∀ (l : List String) (acc : List (String × Nat)),
      sumCounts (l.foldl bump acc) = sumCounts acc + l.length
  | [], acc => by simp
  | x :: xs, acc => by
    simp only [List.foldl_cons, List.length_cons]
    rw [sumCounts_foldl xs (bump acc x), sumCounts_bump]
    omega

theorem sumCounts_counter (l : List String) :
    sumCounts (counter l) = l.length := by
  have h := sumCounts_foldl l []
  simpa [counter, sumCounts] using h

/-- C5 amended: the three `most_common(5)` lists never exceed five
entries, and every key of the render-path nutriscore distribution is
either the sentinel `"X"` or a `nutriscore_grade` value that actually
occurs in the input.  (The keys are *not* in general a subset of
`{A, B, C, D, E, sentinel}`: any grade string present in a product is
counted verbatim — see the counterexample.) -/
theorem c5_top_lengths (ps : List Product) (a : Agg)
    (h : renderAgg ps = .ok a) :
    a.top_brands.length ≤ 5 ∧ a.top_categories.length ≤ 5 ∧
    a.top_ingredients.length ≤ 5 ∧
    (a.nutriscore.all (fun kc =>
      (kc.1 == "X") ||
        ps.any (fun p => p.nutriscore_grade == some kc.1)) = true) := by
  unfold renderAgg at h
  split at h
  case h_2 => exact absurd h (by simp)
  case h_1 bs cs ings hb hc hi =>
    simp only [Except.ok.injEq] at h
    subst h
    refine ⟨List.length_take_le _ _, List.length_take_le _ _,
      List.length_take_le _ _, ?_⟩
    rw [List.all_eq_true]
    rintro ⟨k, c⟩ hkc
    have hk := mem_counter _ k c hkc
    rw [List.mem_map] at hk
    obtain ⟨p, hp, hpk⟩ := hk
    simp only [Bool.or_eq_true, beq_iff_eq, List.any_eq_true]
    cases hg : p.nutriscore_grade with
    | none =>
      rw [hg] at hpk
      exact Or.inl hpk.symm
    | some g =>
      rw [hg] at hpk
      simp only [Option.getD_some] at hpk
      subst hpk
      exact Or.inr ⟨p, hp, by rw [hg]⟩

/-- Witness input for the C5 theorem: the C3 product list aggregates
successfully. -/
def aggC3 : Agg :=
  { nutriscore := [("a", 1), ("b", 1)]
    top_brands := [("Acme", 1), (" Acme", 1), ("Zeta", 1)]
    top_categories := []
    top_ingredients := [] }

theorem c5_top_lengths_witness :
    aggC3.top_brands.length ≤ 5 ∧ aggC3.top_categories.length ≤ 5 ∧
    aggC3.top_ingredients.length ≤ 5 ∧
    (aggC3.nutriscore.all (fun kc =>
      (kc.1 == "X") ||
        psC3.any (fun p => p.nutriscore_grade == some kc.1)) = true) :=
  c5_top_lengths psC3 aggC3 rfl

/-- C5 counterexample: a product carrying the grade string `"z"` makes
`"z"` a key of the nutrition-grade distribution, and `"z"` is in neither
`{A, B, C, D, E}` nor one of the sentinels (`"X"` render / `"unknown"`
save). -/
theorem c5_counterexample :
    (renderAgg [{ nutriscore_grade := some "z" }]).toOption =
      some { nutriscore := [("z", 1)], top_brands := [],
             top_categories := [], top_ingredients := [] } ∧
    "z" ∉ (["A", "B", "C", "D", "E", "X", "unknown"] : List String) := by
  decide

/-- C10 amended: the two grade-counting paths each satisfy only part of
the claim.  The render path (line 628) drops no product — its counts sum
to the input length — but counts present values verbatim (no
uppercasing, and a present-but-empty grade is counted under the label
`""`).  The `save_data` path (line 346) uppercases and never counts an
absent or empty grade, but it *drops* such products instead of bucketing
them under a sentinel: its counts sum to the number of products with a
present nonempty grade, and each of its keys is the uppercased form of a
present nonempty grade. -/
theorem c10_grade_counting (ps : List Product) :
    sumCounts (renderNutriCounts ps) = ps.length ∧
    sumCounts (saveNutriCounts ps) = (ps.filter gradeTruthy).length ∧
    ((saveNutriCounts ps).all (fun kc =>
      ps.any (fun p =>
        match p.nutriscore_grade with
        | some g => (g != "") && (kc.1 == pyUpper g)
        | none => false)) = true) := by
  refine ⟨?_, ?_, ?_⟩
  · rw [renderNutriCounts, sumCounts_counter, List.length_map]
  · rw [saveNutriCounts, sumCounts_counter, List.length_map]
  · rw [List.all_eq_true]
    rintro ⟨k, c⟩ hkc
    have hk := mem_counter _ k c hkc
    rw [List.mem_map] at hk
    obtain ⟨p, hp, hpk⟩ := hk
    rw [List.mem_filter] at hp
    obtain ⟨hps, htruthy⟩ := hp
    rw [List.any_eq_true]
    refine ⟨p, hps, ?_⟩
    unfold gradeTruthy at htruthy
    cases hg : p.nutriscore_grade with
    | none => rw [hg] at htruthy; simp at htruthy
    | some g =>
      rw [hg] at htruthy hpk
      simp only [Option.getD_some] at htruthy hpk
      simp only [Bool.and_eq_true, bne_iff_ne, beq_iff_eq]
      exact ⟨by simpa using htruthy, hpk.symm⟩

/-- C10 counterexample: with one product whose grade is the lowercase
`"a"` and one whose grade is present but empty, the render-path
distribution is `[("a", 1), ("", 1)]` — the grade is not uppercased
before counting and the empty string appears as a counted label. -/
theorem c10_counterexample :
    renderNutriCounts
      [{ nutriscore_grade := some "a" }, { nutriscore_grade := some "" }] =
      [("a", 1), ("", 1)] := by
  decide

theorem jlookup_nd (v1 v2 v3 v4 : Json) :
    jlookup "nutriscore_distribution"
      [("nutriscore_distribution", v1), ("top_brands", v2),
       ("top_categories", v3), ("top_ingredients", v4)] = some v1 := rfl

theorem jlookup_tb (v1 v2 v3 v4 : Json) :
    jlookup "top_brands"
      [("nutriscore_distribution", v1), ("top_brands", v2),
       ("top_categories", v3), ("top_ingredients", v4)] = some v2 := rfl

theorem jlookup_tc (v1 v2 v3 v4 : Json) :
    jlookup "top_categories"
      [("nutriscore_distribution", v1), ("top_brands", v2),
       ("top_categories", v3), ("top_ingredients", v4)] = some v3 := rfl

theorem jlookup_ti (v1 v2 v3 v4 : Json) :
    jlookup "top_ingredients"
      [("nutriscore_distribution", v1), ("top_brands", v2),
       ("top_categories", v3), ("top_ingredients", v4)] = some v4 := rfl

theorem decodeDist_encode :
    ∀ l : List (String × Nat),
      decodeDistEntries (l.map (fun kc => (kc.1, Json.jnum kc.2))) = some l
  | [] => rfl
  | (k, n) :: rest => by
    simp [decodeDistEntries, decodeDist_encode rest]

theorem decodePairs_encode :
    ∀ l : List (String × Nat),
      decodePairsEntries
        (l.map (fun kc => Json.jarr [Json.jstr kc.1, Json.jnum kc.2])) = some l
  | [] => rfl
  | (k, n) :: rest => by
    simp [decodePairsEntries, decodePairs_encode rest]

/-- The JSON serialize/deserialize step is lossless on every aggregation
result. -/
theorem decode_encode (a : Agg) : decodeAgg (encodeAgg a) = some a := by
  obtain ⟨nd, tb, tc, ti⟩ := a
  simp only [encodeAgg, encodeDist, encodePairs, decodeAgg,
    jlookup_nd, jlookup_tb, jlookup_tc, jlookup_ti,
    decodeDist_encode, decodePairs_encode]

/-- C6 amended: the serialize/deserialize step loses nothing — loading
reconstructs exactly the four distributions `save_data` computed — and
the brand, category and ingredient distributions agree with the direct
render aggregation.  The nutriscore distribution, however, is computed
differently by the two paths (`save_data` uppercases and drops
absent/empty grades; the render path counts every product verbatim with
sentinel `"X"`), so the claim's "same four distributions" fails — see
the counterexample. -/
theorem c6_roundtrip (ps : List Product) (a : Agg)
    (h : saveAgg ps = .ok a) :
    decodeAgg (encodeAgg a) = some a ∧
    ∃ b, renderAgg ps = .ok b ∧ b.top_brands = a.top_brands ∧
      b.top_categories = a.top_categories ∧
      b.top_ingredients = a.top_ingredients := by
  refine ⟨decode_encode a, ?_⟩
  unfold saveAgg at h
  unfold renderAgg
  cases hb : collectTokens brandTokens ps with
  | error e => rw [hb] at h; simp at h
  | ok bs =>
    cases hc : collectTokens categoryTokens ps with
    | error e => rw [hb, hc] at h; simp at h
    | ok cs =>
      cases hi : collectTokens ingredientTokens ps with
      | error e => rw [hb, hc, hi] at h; simp at h
      | ok ings =>
        rw [hb, hc, hi] at h
        simp only [Except.ok.injEq] at h
        exact ⟨_, rfl, by rw [← h], by rw [← h], by rw [← h]⟩

/-- What `save_data` computes on the C3 product list (grades uppercased). -/
def aggC3save : Agg :=
  { nutriscore := [("A", 1), ("B", 1)]
    top_brands := [("Acme", 1), (" Acme", 1), ("Zeta", 1)]
    top_categories := []
    top_ingredients := [] }

theorem c6_roundtrip_witness :
    decodeAgg (encodeAgg aggC3save) = some aggC3save ∧
    ∃ b, renderAgg psC3 = .ok b ∧ b.top_brands = aggC3save.top_brands ∧
      b.top_categories = aggC3save.top_categories ∧
      b.top_ingredients = aggC3save.top_ingredients :=
  c6_roundtrip psC3 aggC3save rfl

/-- C6 counterexample: for a product with the lowercase grade `"a"`,
save-then-load reconstructs the nutriscore distribution `[("A", 1)]`
while the direct aggregation of the same product list produces
`[("a", 1)]` — the round trip does not reproduce the distributions the
direct aggregation would produce (the difference comes from the two
aggregations, not from serialization). -/
theorem c6_counterexample :
    (savedThenLoaded psC6).map Agg.nutriscore = some [("A", 1)] ∧
    (directAgg psC6).map Agg.nutriscore = some [("a", 1)] := by
  decide

/-- C7: when page 1 reports `page_count = 1`, the fetcher issues exactly
one `text_search` request and never executes the 7-second inter-page
sleep. -/
theorem c7_single_page (api : Nat → Except Unit SearchResult)
    (r1 : SearchResult) (h1 : api 1 = .ok r1)
    (h2 : r1.page_count = some 1) :
    (fetch_products_by_country api).requests = 1 ∧
    (fetch_products_by_country api).sleeps = 0 := by
  have hout : crawlOf api r1 = ⟨r1.products.getD [], 0, 0, []⟩ := by
    simp [crawlOf, h2, crawlPages]
  simp only [fetch_products_by_country, h1, hout]
  split <;> simp

/-- A concrete single-page API for the C7 witness. -/
def apiC7 : Nat → Except Unit SearchResult
  | 1 => .ok { page_count := some 1,
               products := some [{ nutriscore_grade := some "a" }] }
  | _ => .error ()

theorem c7_single_page_witness :
    (fetch_products_by_country apiC7).requests = 1 ∧
    (fetch_products_by_country apiC7).sleeps = 0 :=
  c7_single_page apiC7
    { page_count := some 1,
      products := some [{ nutriscore_grade := some "a" }] } rfl rfl

theorem fetch_ok_products (api : Nat → Except Unit SearchResult)
    (r1 : SearchResult) (h : api 1 = .ok r1) :
    (fetch_products_by_country api).products = (crawlOf api r1).products := by
  simp only [fetch_products_by_country, h]
  split
  · next h' => exact (List.isEmpty_iff.mp h').symm
  · rfl

theorem fetch_ok_requests (api : Nat → Except Unit SearchResult)
    (r1 : SearchResult) (h : api 1 = .ok r1) :
    (fetch_products_by_country api).requests = (crawlOf api r1).requests + 1 := by
  simp only [fetch_products_by_country, h]
  split <;> rfl

theorem fetch_ok_message (api : Nat → Except Unit SearchResult)
    (r1 : SearchResult) (h : api 1 = .ok r1)
    (hempty : (crawlOf api r1).products = []) :
    "No products found. Please try again later." ∈
      (fetch_products_by_country api).messages := by
  simp only [fetch_products_by_country, h]
  split
  · simp
  · next h' => rw [hempty] at h'; simp at h'

theorem crawlPages_fail (api : Nat → Except Unit SearchResult) :
    ∀ (pre : List Nat) (k : Nat) (post : List Nat) (acc : List Product),
      (∀ j ∈ pre, ∃ r, api j = .ok r) → api k = .error () →
      ∃ rest, crawlPages api acc (pre ++ k :: post) =
        ⟨acc ++ rest, pre.length + 1, pre.length + 1,
         ["Error fetching page " ++ toString k]⟩
  | [], k, post, acc, _, hk => by
    refine ⟨[], ?_⟩
    simp [crawlPages, hk]
  | j :: pre, k, post, acc, hok, hk => by
    obtain ⟨r, hr⟩ := hok j (List.mem_cons_self _ _)
    obtain ⟨rest, hrest⟩ :=
      crawlPages_fail api pre k post (acc ++ r.products.getD [])
        (fun j2 hj2 => hok j2 (List.mem_cons_of_mem _ hj2)) hk
    refine ⟨r.products.getD [] ++ rest, ?_⟩
    simp [crawlPages, hr, hrest, List.append_assoc]

/-- C8: every failure of `fetch_products_by_country` is absorbed into a
returned value (the embedding is a total function — no exception escapes).
(1) If the initial request fails, the result is the empty list with the
`"Error fetching data"` error message.  (2) If the crawl accumulates no
products, the returned list is empty and the `"No products found"` error
message is shown.  (3) If pages `2..k-1` succeed and page `k ≤ n` fails,
the products accumulated through page `k-1` are still returned (page 1's
products are a prefix of the result) and pagination stops early: exactly
`k` requests are issued even though `n` pages were announced. -/
theorem c8_failures (api : Nat → Except Unit SearchResult) :
    (api 1 = .error () →
      fetch_products_by_country api = ⟨[], 1, 0, ["Error fetching data"]⟩) ∧
    (∀ r1, api 1 = .ok r1 → (fetch_products_by_country api).products = [] →
      "No products found. Please try again later." ∈
        (fetch_products_by_country api).messages) ∧
    (∀ r1 n k, api 1 = .ok r1 → r1.page_count = some n → 2 ≤ k → k ≤ n →
      (∀ j, 2 ≤ j → j < k → ∃ r, api j = .ok r) → api k = .error () →
      ∃ rest, (fetch_products_by_country api).products =
          r1.products.getD [] ++ rest ∧
        (fetch_products_by_country api).requests = k) := by
  refine ⟨?_, ?_, ?_⟩
  · intro h
    simp [fetch_products_by_country, h]
  · intro r1 h hp
    exact fetch_ok_message api r1 h
      ((fetch_ok_products api r1 h).symm.trans hp)
  · intro r1 n k h1 hn hk2 hkn hpre hkerr
    have hdecomp : List.range' 2 (n - 1) =
        List.range' 2 (k - 2) ++ k :: List.range' (k + 1) (n - k) := by
      have e1 : ((n - k) + 1) + (k - 2) = n - 1 := by omega
      have e2 : 2 + (k - 2) = k := by omega
      have e3 : List.range' k ((n - k) + 1) =
          k :: List.range' (k + 1) (n - k) := List.range'_succ k (n - k) 1
      rw [← e1, ← List.range'_append_1, e2, e3]
    have hpremem : ∀ j ∈ List.range' 2 (k - 2), ∃ r, api j = .ok r := by
      intro j hj
      rw [List.mem_range'_1] at hj
      exact hpre j hj.1 (by omega)
    obtain ⟨rest, hcrawl⟩ :=
      crawlPages_fail api (List.range' 2 (k - 2)) k
        (List.range' (k + 1) (n - k)) (r1.products.getD []) hpremem hkerr
    have hout : crawlOf api r1 =
        ⟨r1.products.getD [] ++ rest, (k - 2) + 1, (k - 2) + 1,
         ["Error fetching page " ++ toString k]⟩ := by
      unfold crawlOf
      rw [hn]
      simp only [Option.getD_some]
      rw [if_pos (by omega), hdecomp, hcrawl]
      simp
    refine ⟨rest, ?_, ?_⟩
    · rw [fetch_ok_products api r1 h1, hout]
    · rw [fetch_ok_requests api r1 h1, hout]
      show (k - 2) + 1 + 1 = k
      omega

/-- An API whose every request fails (C8 witness, first scenario). -/
def apiErrC8 : Nat → Except Unit SearchResult := fun _ => .error ()

/-- An API that succeeds with zero products (C8 witness, second scenario). -/
def apiEmptyC8 : Nat → Except Unit SearchResult :=
  fun _ => .ok { page_count := some 1, products := some [] }

/-- A product used by the C7/C8 witnesses. -/
def prodA : Product := { nutriscore_grade := some "a" }

/-- An API announcing 3 pages whose page-2 request fails (C8 witness,
third scenario). -/
def apiPartC8 : Nat → Except Unit SearchResult
  | 1 => .ok { page_count := some 3, products := some [prodA] }
  | _ => .error ()

theorem c8_failures_witness :
    (fetch_products_by_country apiErrC8 =
      ⟨[], 1, 0, ["Error fetching data"]⟩) ∧
    ("No products found. Please try again later." ∈
      (fetch_products_by_country apiEmptyC8).messages) ∧
    (∃ rest, (fetch_products_by_country apiPartC8).products =
        [prodA] ++ rest ∧
      (fetch_products_by_country apiPartC8).requests = 2) := by
  refine ⟨(c8_failures apiErrC8).1 rfl, ?_, ?_⟩
  · exact (c8_failures apiEmptyC8).2.1
      { page_count := some 1, products := some [] } rfl rfl
  · exact (c8_failures apiPartC8).2.2
      { page_count := some 3, products := some [prodA] } 3 2 rfl rfl
      (by omega) (by omega)
      (fun j hj1 hj2 => absurd (Nat.lt_of_le_of_lt hj1 hj2) (Nat.lt_irrefl 2))
      rfl

/-- C9: however a `fetch_products_from_csv` run ends — dataset-open
failure, gzip-header failure, a raise in either file pass, zero matches,
or success — the scratch file does not exist when the function returns
(the `finally` block removes it whenever it was created; the statement
assumes, as the claim does, that removing an existing file succeeds). -/
theorem c9_scratch_removed (env : CsvEnv) (code : String) :
    (fetch_products_from_csv env code).tempExistsAfter = false := by
  obtain ⟨hl, dl, df, gf, wf, pf⟩ := env
  cases df <;> cases gf <;> cases wf <;> cases pf <;>
    first
      | rfl
      | (dsimp only [fetch_products_from_csv]
         repeat' split
         all_goals rfl)

end FoodDashboard
